import Mathlib

/-!
Verification of the TestMate Scenario-to-Project Compiler.

This file gives a shallow embedding of the compiler core of the repository:
`ai_modules/excel_processor.py` (methods `read_test_scenarios` and
`validate_test_scenarios`) and `ai_modules/code_generator.py` (the step
lowerer `_generate_step_code`, the test-method and test-file renderers, and
the fixed file contents emitted by `_create_python_project`).  Rows, steps
and scenarios are records of strings; the Python dictionaries become Lean
structures; `pandas` cells that may be absent become `Option String`
(`none` models a column that is absent from the table, `some s` a present
cell after `fillna` has replaced missing values by the empty string).
-/

/-- Python `str.lower` for one character, as used on the action and locator
tokens of this code base: ASCII letters plus the Turkish uppercase letters
that occur in the token tables.  Capital dotted I lowers to `i` followed by a
combining dot above, exactly as CPython does. -/
def pyLowerChar (c : Char) : List Char :=
  if 'A' ≤ c ∧ c ≤ 'Z' then [Char.ofNat (c.toNat + 32)]
  else if c = 'Ç' then ['ç']
  else if c = 'Ğ' then ['ğ']
  else if c = 'İ' then ['i', '̇']
  else if c = 'Ö' then ['ö']
  else if c = 'Ş' then ['ş']
  else if c = 'Ü' then ['ü']
  else if c = 'I' then ['i']
  else [c]

/-- Python `str.lower` on the alphabet used by this repository. -/
def pyLower (s : String) : String :=
  String.mk (s.toList.map pyLowerChar).flatten

/-- Python `str.upper` for one character, on the same alphabet. -/
def pyUpperChar (c : Char) : Char :=
  if 'a' ≤ c ∧ c ≤ 'z' then Char.ofNat (c.toNat - 32)
  else if c = 'ç' then 'Ç'
  else if c = 'ğ' then 'Ğ'
  else if c = 'ı' then 'I'
  else if c = 'ö' then 'Ö'
  else if c = 'ş' then 'Ş'
  else if c = 'ü' then 'Ü'
  else c

/-- Python `str.upper` on the alphabet used by this repository. -/
def pyUpper (s : String) : String :=
  String.mk (s.toList.map pyUpperChar)

/-- One step of a test scenario: the `step` dictionary built by
`ExcelProcessor.read_test_scenarios` (lines 141-151). -/
structure Step where
  step_number : Nat := 1
  description : String := ""
  locator_type : String := ""
  locator_value : String := ""
  action : String := ""
  test_data : String := ""
  expected_result : String := ""
  status : String := ""
  notes : String := ""
  deriving Repr, DecidableEq

/-- One test scenario: the `test_scenario` dictionary built by
`ExcelProcessor.read_test_scenarios` (lines 131-138). -/
structure Scenario where
  test_id : String := ""
  test_name : String := ""
  test_description : String := ""
  priority : String := "Orta"
  test_type : String := "Web"
  steps : List Step := []
  deriving Repr, DecidableEq

/-- One source row of the scenario table, after `pandas` reading and
`fillna`.  A field is `none` when the corresponding column is absent from
the sheet (so that `row.get(col, default)` yields the default) and
`some s` when the column is present with cell content `s` (the empty
string for a blank cell). -/
structure Row where
  testId : Option String := none
  testName : Option String := none
  testDesc : Option String := none
  priorityCell : Option String := none
  testTypeCell : Option String := none
  stepNo : Option Nat := none
  stepDesc : Option String := none
  locatorType : Option String := none
  locatorValue : Option String := none
  actionCell : Option String := none
  testData : Option String := none
  expectedCell : Option String := none
  statusCell : Option String := none
  notesCell : Option String := none
  deriving Repr, DecidableEq

/-- The step record built from one row
(`ExcelProcessor.read_test_scenarios`, lines 141-151). -/
def mkStep (row : Row) : Step :=
  { step_number := row.stepNo.getD 1
    description := row.stepDesc.getD ""
    locator_type := row.locatorType.getD ""
    locator_value := row.locatorValue.getD ""
    action := row.actionCell.getD ""
    test_data := row.testData.getD ""
    expected_result := row.expectedCell.getD ""
    status := row.statusCell.getD ""
    notes := row.notesCell.getD "" }

/-- One iteration of the row loop of `ExcelProcessor.read_test_scenarios`
(lines 119-154): skip the row when its `Test ID` cell is empty, otherwise
append a fresh single-step scenario, disambiguating a repeated id by the
suffix `_step_N` built from the row's step number. -/
def normalizeRow (acc : List Scenario) (row : Row) : List Scenario :=
  let testId := row.testId.getD ""
  if testId = "" then acc
  else
    let uniqueId :=
      if acc.any (fun sc => sc.test_id = testId) then
        testId ++ "_step_" ++ toString (row.stepNo.getD 1)
      else testId
    acc ++ [{ test_id := uniqueId
              test_name := row.testName.getD ("Test " ++ uniqueId)
              test_description := row.testDesc.getD ""
              priority := row.priorityCell.getD "Orta"
              test_type := row.testTypeCell.getD "Web"
              steps := [mkStep row] }]

/-- `ExcelProcessor.read_test_scenarios`: fold the row loop over the table. -/
def read_test_scenarios (rows : List Row) : List Scenario :=
  rows.foldl normalizeRow []

/-- The per-scenario fatal checks of `ExcelProcessor.validate_test_scenarios`
(lines 230-238). -/
def scenarioErrors (sc : Scenario) : List String :=
  (if sc.test_id = "" then ["Test ID eksik"] else [])
    ++ (if sc.test_name = "" then ["Test adı eksik"] else [])
    ++ (if sc.steps = [] then ["Test adımları eksik"] else [])

/-- The per-step warning checks of `ExcelProcessor.validate_test_scenarios`
(lines 244-251): missing description, missing locator for the `Tıkla` and
`Yaz` actions, missing test data for `Yaz`. -/
def stepWarningsOf (st : Step) : List String :=
  (if st.description = "" then
      ["Adım " ++ toString st.step_number ++ ": Açıklama eksik"] else [])
    ++ (if (st.action = "Tıkla" ∨ st.action = "Yaz") ∧ st.locator_value = "" then
      ["Adım " ++ toString st.step_number ++ ": Eylem için locator eksik"] else [])
    ++ (if st.action = "Yaz" ∧ st.test_data = "" then
      ["Adım " ++ toString st.step_number ++ ": Yazma eylemi için test verisi eksik"] else [])

/-- The counters of the validation record. -/
structure ValidationSummary where
  total_tests : Nat
  total_steps : Nat
  tests_with_errors : Nat
  tests_with_warnings : Nat
  deriving Repr, DecidableEq

/-- The record returned by `ExcelProcessor.validate_test_scenarios`. -/
structure ValidationResult where
  valid : Bool
  errors : List String
  warnings : List String
  summary : ValidationSummary
  deriving Repr, DecidableEq

/-- One iteration of the scenario loop of
`ExcelProcessor.validate_test_scenarios` (lines 226-260). -/
def validateScenarioStep (acc : ValidationResult) (sc : Scenario) : ValidationResult :=
  let errs := scenarioErrors sc
  let warns := sc.steps.foldl (fun ws st => ws ++ stepWarningsOf st) []
  { valid := acc.valid && errs.isEmpty
    errors := acc.errors ++ errs.map (fun e => sc.test_id ++ ": " ++ e)
    warnings := acc.warnings ++ warns.map (fun w => sc.test_id ++ ": " ++ w)
    summary :=
      { total_tests := acc.summary.total_tests
        total_steps := acc.summary.total_steps + sc.steps.length
        tests_with_errors :=
          acc.summary.tests_with_errors + (if errs.isEmpty then 0 else 1)
        tests_with_warnings :=
          acc.summary.tests_with_warnings + (if warns.isEmpty then 0 else 1) } }

/-- `ExcelProcessor.validate_test_scenarios` (lines 212-262). -/
def validate_test_scenarios (scenarios : List Scenario) : ValidationResult :=
  scenarios.foldl validateScenarioStep
    { valid := true
      errors := []
      warnings := []
      summary :=
        { total_tests := scenarios.length
          total_steps := 0
          tests_with_errors := 0
          tests_with_warnings := 0 } }

/-- The closed set of Python-project target frameworks of
`CodeGenerator` (`selenium` for web, `appium` for mobile, `requests` for
api), as selected by `CodeGenerator._detect_framework`. -/
inductive Framework where
  | selenium
  | appium
  | requests
  deriving Repr, DecidableEq

/-- The framework key string used throughout `CodeGenerator`. -/
def Framework.name : Framework → String
  | .selenium => "selenium"
  | .appium => "appium"
  | .requests => "requests"

/-- The `selenium` locator dictionary of `CodeGenerator._get_element_code`
(lines 482-489). -/
def seleniumLocatorMap : List (String × String) :=
  [("id", "By.ID"), ("class", "By.CLASS_NAME"), ("xpath", "By.XPATH"),
   ("css", "By.CSS_SELECTOR"), ("name", "By.NAME"), ("link", "By.LINK_TEXT")]

/-- The `appium` locator dictionary of `CodeGenerator._get_element_code`
(lines 494-501). -/
def appiumLocatorMap : List (String × String) :=
  [("id", "MobileBy.ID"), ("class", "MobileBy.CLASS_NAME"), ("xpath", "MobileBy.XPATH"),
   ("css", "MobileBy.CSS_SELECTOR"), ("name", "MobileBy.NAME"), ("link", "MobileBy.LINK_TEXT")]

/-- `CodeGenerator._get_element_code`: render the element-lookup expression
for a lowered locator type and a raw locator value. -/
def get_element_code (locator_type locator_value : String) (fw : Framework) : String :=
  match fw with
  | .selenium =>
      "self.wait.until(EC.element_to_be_clickable(("
        ++ ((seleniumLocatorMap.lookup locator_type).getD "By.ID")
        ++ ", \x27" ++ locator_value ++ "\x27)))"
  | .appium =>
      "self.wait.until(EC.element_to_be_clickable(("
        ++ ((appiumLocatorMap.lookup locator_type).getD "MobileBy.ID")
        ++ ", \x27" ++ locator_value ++ "\x27)))"
  | .requests =>
      "# Element bulma kodu: " ++ locator_type ++ " = \x27" ++ locator_value ++ "\x27"

/-- The trailing expected-outcome comment appended by
`CodeGenerator._generate_step_code` (lines 473-475). -/
def expectedComment (st : Step) : List String :=
  if st.expected_result = "" then []
  else ["# Beklenen sonuç: " ++ st.expected_result]

/-- `CodeGenerator._generate_step_code` (lines 426-477): lower one step to
the list of generated source lines for the given framework. -/
def generate_step_code (st : Step) (fw : Framework) : List String :=
  let action := pyLower st.action
  let lt := pyLower st.locator_type
  let lv := st.locator_value
  let td := st.test_data
  let code :=
    if action = "aç" then
      match fw with
      | .selenium => ["self.driver.get(\x27" ++ td ++ "\x27)"]
      | .appium => ["# Uygulama zaten açık"]
      | .requests =>
          ["response = self.session.get(\x27" ++ td ++ "\x27)",
           "assert response.status_code == 200"]
    else if action = "tıkla" then
      if lv ≠ "" then
        ["element = " ++ get_element_code lt lv fw, "element.click()"]
      else []
    else if action = "yaz" then
      if lv ≠ "" ∧ td ≠ "" then
        ["element = " ++ get_element_code lt lv fw, "element.clear()",
         "element.send_keys(\x27" ++ td ++ "\x27)"]
      else []
    else if action = "bekle" then
      match fw with
      | .selenium => ["time.sleep(2)"]
      | .appium => ["time.sleep(2)"]
      | .requests => ["time.sleep(1)"]
    else if action = "seç" then
      if lv ≠ "" ∧ td ≠ "" then
        ["element = " ++ get_element_code lt lv fw, "element.click()"]
      else []
    else []
  code ++ expectedComment st

/-- Condition under which `CodeGenerator._generate_step_code` emits at least
one action line (independently of the expected-outcome comment): the
case-folded action token is recognized and its required locator or datum
fields are non-empty. -/
def rendersCode (st : Step) : Bool :=
  let action := pyLower st.action
  if action = "aç" then true
  else if action = "tıkla" then
    if st.locator_value ≠ "" then true else false
  else if action = "yaz" then
    if st.locator_value ≠ "" ∧ st.test_data ≠ "" then true else false
  else if action = "bekle" then true
  else if action = "seç" then
    if st.locator_value ≠ "" ∧ st.test_data ≠ "" then true else false
  else false

/-- `CodeGenerator._generate_test_method` (lines 402-424), as the list of
source lines later joined by a newline. -/
def generateTestMethodLines (sc : Scenario) (fw : Framework) : List String :=
  ["    def test_" ++ pyLower sc.test_id ++ "(self):",
   "        \"\"\"" ++ sc.test_description ++ "\"\"\"",
   "        try:"]
  ++ (sc.steps.map (fun st =>
        (generate_step_code st fw).map (fun l => "            " ++ l))).flatten
  ++ ["            # Test başarılı",
      "            assert True",
      "        except Exception as e:",
      "            # Hata durumunda ekran görüntüsü al"]
  ++ (match fw with
      | .selenium =>
          ["            self.driver.save_screenshot(f\x27screenshots/error_"
            ++ sc.test_id ++ ".png\x27)"]
      | _ => [])
  ++ ["            raise e"]

/-- `CodeGenerator._generate_test_method`, joined into one string. -/
def generate_test_method (sc : Scenario) (fw : Framework) : String :=
  String.intercalate "\n" (generateTestMethodLines sc fw)

/-- A character kept by the regular expression substitution
`re.sub(r"[^a-zA-Z0-9\s]", "", ...)` of `CodeGenerator._generate_class_name`:
ASCII alphanumeric or Python whitespace. -/
def keptChar (c : Char) : Bool :=
  ('a' ≤ c && c ≤ 'z') || ('A' ≤ c && c ≤ 'Z') || ('0' ≤ c && c ≤ '9')
    || c = ' ' || c = '\t' || c = '\n' || c = '\x0d' || c = '\x0b' || c = '\x0c'

/-- Python whitespace, the split alphabet of `str.split()` (restricted to
ASCII, which is all that survives `keptChar`). -/
def pySpace (c : Char) : Bool :=
  c = ' ' || c = '\t' || c = '\n' || c = '\x0d' || c = '\x0b' || c = '\x0c'

/-- The accumulator loop of CPython `str.split()` with no separator
argument: walk the characters, gathering the current word in reverse. -/
def pySplitAux : List Char → List Char → List (List Char)
  | [], acc => if acc.isEmpty then [] else [acc.reverse]
  | c :: cs, acc =>
      if pySpace c then
        if acc.isEmpty then pySplitAux cs [] else acc.reverse :: pySplitAux cs []
      else pySplitAux cs (c :: acc)

/-- Python `str.split()` on a character list: maximal runs of
non-whitespace characters. -/
def pySplit (cs : List Char) : List (List Char) :=
  pySplitAux cs []

/-- Python `str.capitalize()` on a word that survived `keptChar` (ASCII):
first character uppercased, the rest lowercased. -/
def pyCapitalize : List Char → List Char
  | [] => []
  | c :: cs => c.toUpper :: cs.map Char.toLower

/-- `CodeGenerator._generate_class_name` (lines 394-400): strip characters
that are neither ASCII alphanumeric nor whitespace, split the remainder on
whitespace, capitalize each word, concatenate, and prefix `Test`. -/
def generate_class_name (test_name : String) : String :=
  "Test" ++ String.mk (((pySplit (test_name.toList.filter keptChar)).map pyCapitalize).flatten)

/-- Modelled from the spec wording of the naming rule: the words of the
name after dropping every character that is neither alphanumeric nor
whitespace, taken with the standard word recursion (drop spaces, peel one
maximal non-space run at a time), each capitalized, concatenated and
prefixed with `Test`.  To be compared with `generate_class_name`. -/
def wordsSpec : List Char → List (List Char)
  | [] => []
  | c :: cs =>
      if pySpace c then wordsSpec cs
      else (c :: cs.takeWhile (fun d => !pySpace d))
        :: wordsSpec (cs.dropWhile (fun d => !pySpace d))
  termination_by l => l.length
  decreasing_by
    · simp
    · simp only [List.length_cons, Nat.lt_succ_iff]
      exact (List.IsSuffix.sublist (List.dropWhile_suffix _)).length_le

/-- The claim-side rendering of the class name. -/
def classNameClaim (test_name : String) : String :=
  "Test" ++ String.mk (((wordsSpec (test_name.toList.filter keptChar)).map pyCapitalize).flatten)

/-- The framework import blocks of `CodeGenerator.framework_templates`
(lines 13-51), for the three Python targets. -/
def frameworkImports : Framework → List String
  | .selenium =>
      ["from selenium import webdriver",
       "from selenium.webdriver.common.by import By",
       "from selenium.webdriver.support.ui import WebDriverWait",
       "from selenium.webdriver.support import expected_conditions as EC",
       "from selenium.webdriver.common.keys import Keys",
       "import time",
       "import pytest"]
  | .appium =>
      ["from appium import webdriver",
       "from appium.webdriver.common.mobileby import MobileBy",
       "from selenium.webdriver.support.ui import WebDriverWait",
       "from selenium.webdriver.support import expected_conditions as EC",
       "import time",
       "import pytest"]
  | .requests =>
      ["import requests",
       "import json",
       "import pytest",
       "from typing import Dict, Any"]

/-- The per-framework setup line of `CodeGenerator.framework_templates`. -/
def frameworkSetup : Framework → String
  | .selenium => "self.driver = webdriver.Chrome()"
  | .appium => "self.driver = webdriver.Remote(\x27http://localhost:4723/wd/hub\x27, desired_caps)"
  | .requests => "self.session = requests.Session()"

/-- The per-framework teardown line of `CodeGenerator.framework_templates`. -/
def frameworkTeardown : Framework → String
  | .selenium => "self.driver.quit()"
  | .appium => "self.driver.quit()"
  | .requests => "self.session.close()"

/-- The per-framework wait expression of `CodeGenerator.framework_templates`. -/
def frameworkWait : Framework → String
  | .selenium => "WebDriverWait(self.driver, 10)"
  | .appium => "WebDriverWait(self.driver, 10)"
  | .requests => "time.sleep(1)"

/-- `CodeGenerator._generate_test_file_content` (lines 508-534). -/
def generate_test_file_content (class_name test_method : String) (fw : Framework) : String :=
  String.intercalate "\n" (frameworkImports fw)
    ++ "\n\nfrom config import Config\n\n\nclass " ++ class_name
    ++ ":\n    \"\"\"" ++ class_name ++ " test sınıfı\"\"\"\n    \n"
    ++ "    def setup_method(self):\n        \"\"\"Her test öncesi çalışır\"\"\"\n        "
    ++ frameworkSetup fw ++ "\n        self.wait = " ++ frameworkWait fw
    ++ "\n    \n    def teardown_method(self):\n        \"\"\"Her test sonrası çalışır\"\"\"\n        "
    ++ frameworkTeardown fw ++ "\n    \n" ++ test_method ++ "\n"

/-- The relative file name chosen by `CodeGenerator._generate_test_file`
(line 386). -/
def testFileName (sc : Scenario) : String :=
  "test_" ++ pyLower sc.test_id ++ ".py"

/-- The content written by `CodeGenerator._generate_test_file`. -/
def testFileContent (sc : Scenario) (fw : Framework) : String :=
  generate_test_file_content (generate_class_name sc.test_name)
    (generate_test_method sc fw) fw

/-- The dependency lists of `CodeGenerator._create_requirements_file`
(lines 181-201). -/
def requirementsList : Framework → List String
  | .selenium =>
      ["selenium==4.15.2", "pytest==7.4.3", "pytest-html==4.1.1",
       "webdriver-manager==4.0.1", "pytest-xdist==3.3.1"]
  | .appium =>
      ["Appium-Python-Client==3.1.1", "pytest==7.4.3", "pytest-html==4.1.1",
       "pytest-xdist==3.3.1"]
  | .requests =>
      ["requests==2.31.0", "pytest==7.4.3", "pytest-html==4.1.1",
       "pytest-xdist==3.3.1"]

/-- The `requirements.txt` content written by
`CodeGenerator._create_requirements_file` (line 204). -/
def requirementsContent (fw : Framework) : String :=
  String.intercalate "\n" (requirementsList fw)

/-- The `config.py` content written by `CodeGenerator._create_config_file`
(lines 208-273).  Only the framework name is interpolated. -/
def configContent (fw : Framework) : String :=
  String.intercalate "\n"
    ["# Otomasyon Projesi Konfigürasyonu",
     "# Framework: " ++ pyUpper fw.name,
     "",
     "import os",
     "from typing import Dict, Any",
     "",
     "class Config:",
     "    \"\"\"Test konfigürasyonu\"\"\"",
     "    ",
     "    # Test ayarları",
     "    IMPLICIT_WAIT = 10",
     "    EXPLICIT_WAIT = 10",
     "    PAGE_LOAD_TIMEOUT = 30",
     "    ",
     "    # Tarayıcı ayarları (Selenium için)",
     "    BROWSER = \"chrome\"  # chrome, firefox, safari, edge",
     "    HEADLESS = False",
     "    ",
     "    # Appium ayarları (Mobil için)",
     "    APPIUM_SERVER = \"http://localhost:4723/wd/hub\"",
     "    ANDROID_CAPS = \x7b",
     "        \"platformName\": \"Android\",",
     "        \"platformVersion\": \"11.0\",",
     "        \"deviceName\": \"Android Emulator\",",
     "        \"automationName\": \"UiAutomator2\",",
     "        \"app\": \"path/to/your/app.apk\"",
     "    \x7d",
     "    ",
     "    IOS_CAPS = \x7b",
     "        \"platformName\": \"iOS\",",
     "        \"platformVersion\": \"15.0\",",
     "        \"deviceName\": \"iPhone Simulator\",",
     "        \"automationName\": \"XCUITest\",",
     "        \"app\": \"path/to/your/app.app\"",
     "    \x7d",
     "    ",
     "    # API ayarları",
     "    BASE_URL = \"https://api.example.com\"",
     "    API_TIMEOUT = 30",
     "    ",
     "    # Test verileri",
     "    TEST_DATA = \x7b",
     "        \"valid_user\": \x7b",
     "            \"email\": \"test@example.com\",",
     "            \"password\": \"123456\"",
     "        \x7d,",
     "        \"invalid_user\": \x7b",
     "            \"email\": \"invalid@example.com\",",
     "            \"password\": \"wrong\"",
     "        \x7d",
     "    \x7d",
     "    ",
     "    # Rapor ayarları",
     "    REPORT_DIR = \"reports\"",
     "    SCREENSHOT_DIR = \"screenshots\"",
     "    ",
     "    @classmethod",
     "    def get_driver_caps(cls) -> Dict[str, Any]:",
     "        \"\"\"Driver capabilities döndür\"\"\"",
     "        if framework == \"appium\":",
     "            return cls.ANDROID_CAPS",
     "        return \x7b\x7d",
     ""]

/-- The `setup.bat` content of `CodeGenerator._create_setup_script`
(Windows branch, lines 278-318). -/
def setupBatContent : String :=
  String.intercalate "\n"
    ["@echo off",
     "echo ========================================",
     "echo AI Test Tool - Otomatik Kurulum",
     "echo ========================================",
     "echo.",
     "",
     "echo Python kontrol ediliyor...",
     "python --version",
     "if %errorlevel% neq 0 (",
     "    echo HATA: Python bulunamadı! Lütfen Python 3.8+ yükleyin.",
     "    pause",
     "    exit /b 1",
     ")",
     "",
     "echo.",
     "echo Virtual environment oluşturuluyor...",
     "python -m venv venv",
     "if %errorlevel% neq 0 (",
     "    echo HATA: Virtual environment oluşturulamadı!",
     "    pause",
     "    exit /b 1",
     ")",
     "",
     "echo.",
     "echo Virtual environment aktifleştiriliyor...",
     "call venv\\Scripts\\activate.bat",
     "",
     "echo.",
     "echo Dependencies yükleniyor...",
     "pip install --upgrade pip",
     "pip install -r requirements.txt",
     "",
     "echo.",
     "echo Kurulum tamamlandı!",
     "echo.",
     "echo Testleri çalıştırmak için:",
     "echo 1. venv\\Scripts\\activate.bat",
     "echo 2. python run_tests.py",
     "echo.",
     "pause",
     ""]

/-- The `setup.sh` content of `CodeGenerator._create_setup_script`
(POSIX branch, lines 321-359). -/
def setupShContent : String :=
  String.intercalate "\n"
    ["#!/bin/bash",
     "",
     "echo \"========================================\"",
     "echo \"AI Test Tool - Otomatik Kurulum\"",
     "echo \"========================================\"",
     "echo",
     "",
     "echo \"Python kontrol ediliyor...\"",
     "python3 --version",
     "if [ $? -ne 0 ]; then",
     "    echo \"HATA: Python bulunamadı! Lütfen Python 3.8+ yükleyin.\"",
     "    exit 1",
     "fi",
     "",
     "echo",
     "echo \"Virtual environment oluşturuluyor...\"",
     "python3 -m venv venv",
     "if [ $? -ne 0 ]; then",
     "    echo \"HATA: Virtual environment oluşturulamadı!\"",
     "    exit 1",
     "fi",
     "",
     "echo",
     "echo \"Virtual environment aktifleştiriliyor...\"",
     "source venv/bin/activate",
     "",
     "echo",
     "echo \"Dependencies yükleniyor...\"",
     "pip install --upgrade pip",
     "pip install -r requirements.txt",
     "",
     "echo",
     "echo \"Kurulum tamamlandı!\"",
     "echo",
     "echo \"Testleri çalıştırmak için:\"",
     "echo \"1. source venv/bin/activate\"",
     "echo \"2. python run_tests.py\"",
     "echo",
     ""]

/-- The setup-script file name chosen by `CodeGenerator._create_setup_script`. -/
def setupFileName (isWindows : Bool) : String :=
  if isWindows then "setup.bat" else "setup.sh"

/-- The setup-script content chosen by `CodeGenerator._create_setup_script`,
conditioned on the host family (`os.name == "nt"`). -/
def setupScriptContent (isWindows : Bool) : String :=
  if isWindows then setupBatContent else setupShContent

/-- The `README.md` content of `CodeGenerator._create_readme_file`
(lines 538-602).  `now` is the `datetime.now().strftime("%Y-%m-%d %H:%M:%S")`
string evaluated at generation time. -/
def readmeContent (fw : Framework) (testCount : Nat) (projectPath now : String) : String :=
  String.intercalate "\n"
    ["# Otomasyon Projesi",
     "",
     "Bu proje, AI Test Tool tarafından otomatik olarak oluşturulmuştur.",
     "",
     "## Proje Bilgileri",
     "",
     "- **Framework**: " ++ pyUpper fw.name,
     "- **Test Sayısı**: " ++ toString testCount,
     "- **Oluşturulma Tarihi**: " ++ now,
     "",
     "## Kurulum",
     "",
     "1. Python 3.8+ yüklü olduğundan emin olun",
     "2. Gerekli paketleri yükleyin:",
     "   ```bash",
     "   pip install -r requirements.txt",
     "   ```",
     "",
     "## Test Çalıştırma",
     "",
     "### Tüm testleri çalıştır:",
     "```bash",
     "pytest",
     "```",
     "",
     "### Belirli bir testi çalıştır:",
     "```bash",
     "pytest test_tc001.py",
     "```",
     "",
     "### HTML rapor ile çalıştır:",
     "```bash",
     "pytest --html=reports/report.html",
     "```",
     "",
     "## Proje Yapısı",
     "",
     "```",
     projectPath ++ "/",
     "├── requirements.txt      # Gerekli paketler",
     "├── config.py            # Konfigürasyon dosyası",
     "├── test_*.py           # Test dosyaları",
     "├── README.md           # Bu dosya",
     "└── reports/            # Test raporları",
     "```",
     "",
     "## Konfigürasyon",
     "",
     "`config.py` dosyasından aşağıdaki ayarları yapabilirsiniz:",
     "",
     "- Tarayıcı türü (Selenium için)",
     "- Bekleme süreleri",
     "- Test verileri",
     "- API endpoint\x27leri",
     "",
     "## Notlar",
     "",
     "- Test çalıştırmadan önce `config.py` dosyasındaki ayarları kontrol edin",
     "- Mobil testler için Appium Server\x27ın çalışır durumda olduğundan emin olun",
     "- API testleri için doğru endpoint URL\x27lerini ayarlayın",
     "",
     "## Destek",
     "",
     "Sorunlar için AI Test Tool\x27u kullanabilirsiniz.",
     ""]

/-- The `run_tests.py` content of `CodeGenerator._create_test_runner`
(lines 609-650).  Only the framework name is interpolated; the
date-stamped report name is part of the emitted script text, evaluated
only when the runner itself executes. -/
def runnerContent (fw : Framework) : String :=
  String.intercalate "\n"
    ["#!/usr/bin/env python3",
     "\"\"\"",
     "Test Runner Script",
     "Framework: " ++ pyUpper fw.name,
     "\"\"\"",
     "",
     "import pytest",
     "import sys",
     "import os",
     "from datetime import datetime",
     "",
     "def main():",
     "    \"\"\"Ana test runner fonksiyonu\"\"\"",
     "    ",
     "    # Rapor dizinini oluştur",
     "    report_dir = \"reports\"",
     "    os.makedirs(report_dir, exist_ok=True)",
     "    ",
     "    # Ekran görüntüsü dizinini oluştur",
     "    screenshot_dir = \"screenshots\"",
     "    os.makedirs(screenshot_dir, exist_ok=True)",
     "    ",
     "    # Test argümanları",
     "    args = [",
     "        \"--verbose\",",
     "        f\"--html=\x7breport_dir\x7d/report_\x7bdatetime.now().strftime(\x27%Y%m%d_%H%M%S\x27)\x7d.html\",",
     "        \"--self-contained-html\",",
     "        \"--tb=short\"",
     "    ]",
     "    ",
     "    # Komut satırı argümanlarını ekle",
     "    args.extend(sys.argv[1:])",
     "    ",
     "    # Testleri çalıştır",
     "    exit_code = pytest.main(args)",
     "    ",
     "    print(f\"\\nTest çalıştırma tamamlandı. Çıkış kodu: \x7bexit_code\x7d\")",
     "    return exit_code",
     "",
     "if __name__ == \"__main__\":",
     "    sys.exit(main())",
     ""]

/-- The ordered list of `(relative path, content)` pairs written by
`CodeGenerator.generate_test_project` for a Python project
(`_create_python_project`, lines 1243-1268): requirements, setup script,
config, one test file per scenario, README, runner.  `now` is the
generation-time timestamp string and `isWindows` the host family. -/
def emittedFiles (scenarios : List Scenario) (fw : Framework)
    (projectName : String) (isWindows : Bool) (now : String) :
    List (String × String) :=
  [("requirements.txt", requirementsContent fw),
   (setupFileName isWindows, setupScriptContent isWindows),
   ("config.py", configContent fw)]
  ++ scenarios.map (fun sc => (testFileName sc, testFileContent sc fw))
  ++ [("README.md",
        readmeContent fw scenarios.length ("generated_tests/" ++ projectName) now),
      ("run_tests.py", runnerContent fw)]

/-- Sample row: a complete first row with key `TC001`. -/
def rowTC1 : Row :=
  { testId := some "TC001", testName := some "Kullanıcı Girişi",
    stepNo := some 1, actionCell := some "Aç",
    testData := some "https://example.com" }

/-- Sample row with an empty `Test ID` cell. -/
def rowNoKey : Row :=
  { testId := some "", testName := some "X" }

/-- Sample minimal row with key `TC001` and step number 1, used to repeat a key. -/
def rowDup : Row :=
  { testId := some "TC001", stepNo := some 1 }

/-- Sample row whose `Öncelik` and `Test Türü` cells are present but blank. -/
def rowBlankCells : Row :=
  { testId := some "TC002", priorityCell := some "", testTypeCell := some "" }

/-- The scenario produced for the first `rowDup` occurrence. -/
def scTC001 : Scenario :=
  { test_id := "TC001", test_name := "Test TC001", steps := [{ step_number := 1 }] }

/-- The scenario produced for the second `rowDup` occurrence. -/
def scDupSecond : Scenario :=
  { test_id := "TC001_step_1", test_name := "Test TC001_step_1",
    steps := [{ step_number := 1 }] }

/-- Sample step with an unrecognized action token. -/
def stepLevitate : Step :=
  { description := "adım", action := "levitate" }

/-- Sample scenario holding only `stepLevitate`. -/
def scLevitate : Scenario :=
  { test_id := "TC1", test_name := "Lev", steps := [stepLevitate] }

/-- Sample step with all fields at their defaults (empty strings). -/
def stepBlank : Step := {}

/-- Sample open step with an upper-case action token and a URL datum. -/
def stepOpen : Step :=
  { action := "Aç", test_data := "https://example.com" }

/-- Sample select step with an empty locator value. -/
def stepSelectNoLocator : Step :=
  { description := "adım", action := "Seç" }

/-- Sample scenario holding only `stepSelectNoLocator`. -/
def scSelect : Scenario :=
  { test_id := "TC2", test_name := "S", steps := [stepSelectNoLocator] }

/-- Sample click step with an empty locator value. -/
def stepClickNoLocator : Step :=
  { description := "adım", action := "Tıkla" }

/-- Sample scenario holding only `stepClickNoLocator`. -/
def scClick : Scenario :=
  { test_id := "TC3", test_name := "C", steps := [stepClickNoLocator] }

/-- A row whose `Test ID` cell is empty contributes nothing to the fold. -/
theorem normalizeRow_skip (acc : List Scenario) (r : Row)
    (h : r.testId.getD "" = "") : normalizeRow acc r = acc := by
  simp [normalizeRow, h]

/-- Every scenario accumulated by the row fold is either inherited from the
accumulator or stems from one row, with id equal to that row's raw key or
to the synthetic `_step_N` form. -/
theorem foldl_normalizeRow_mem (rows : List Row) (acc : List Scenario)
    (sc : Scenario) (h : sc ∈ rows.foldl normalizeRow acc) :
    sc ∈ acc ∨ ∃ r ∈ rows, sc.test_id = r.testId.getD ""
      ∨ sc.test_id = r.testId.getD "" ++ "_step_" ++ toString (r.stepNo.getD 1) := by
  induction rows generalizing acc with
  | nil => exact Or.inl h
  | cons r rs ih =>
    rcases ih (normalizeRow acc r) h with h' | ⟨r', hr', hid⟩
    · by_cases hskip : r.testId.getD "" = ""
      · rw [normalizeRow_skip _ _ hskip] at h'
        exact Or.inl h'
      · simp only [normalizeRow, if_neg hskip] at h'
        rcases List.mem_append.1 h' with hmem | hmem
        · exact Or.inl hmem
        · right
          refine ⟨r, List.mem_cons_self _ _, ?_⟩
          simp only [List.mem_singleton] at hmem
          subst hmem
          by_cases hdup : acc.any (fun sc => sc.test_id = r.testId.getD "")
          · right; simp [hdup]
          · left; simp [hdup]
    · exact Or.inr ⟨r', List.mem_cons_of_mem _ hr', hid⟩

/-- The row fold appends exactly one scenario per row with a non-empty key. -/
theorem foldl_normalizeRow_length (rows : List Row) (acc : List Scenario) :
    (rows.foldl normalizeRow acc).length
      = acc.length + (rows.filter (fun r => !(r.testId.getD "" == ""))).length := by
  induction rows generalizing acc with
  | nil => simp
  | cons r rs ih =>
    by_cases h : r.testId.getD "" = ""
    · rw [List.foldl_cons, normalizeRow_skip _ _ h, ih]
      simp [List.filter, h]
    · rw [List.foldl_cons, ih]
      simp only [normalizeRow, if_neg h]
      have hb : (!(r.testId.getD "" == "")) = true := by
        simp [h]
      simp [List.filter_cons, hb]
      omega

/-- Every scenario appended by the row fold carries exactly one step. -/
theorem foldl_normalizeRow_steps (rows : List Row) (acc : List Scenario)
    (hacc : ∀ sc ∈ acc, sc.steps.length = 1) :
    ∀ sc ∈ rows.foldl normalizeRow acc, sc.steps.length = 1 := by
  induction rows generalizing acc with
  | nil => exact hacc
  | cons r rs ih =>
    refine ih (normalizeRow acc r) ?_
    intro sc hsc
    by_cases h : r.testId.getD "" = ""
    · rw [normalizeRow_skip _ _ h] at hsc
      exact hacc sc hsc
    · simp only [normalizeRow, if_neg h] at hsc
      rcases List.mem_append.1 hsc with hmem | hmem
      · exact hacc sc hmem
      · simp only [List.mem_singleton] at hmem
        subst hmem
        rfl

/-- C3 (counterexample): the ids assigned by `read_test_scenarios` are not
pairwise distinct: three rows sharing key `TC001` and step number 1 yield
the synthetic id `TC001_step_1` twice. -/
theorem scenario_ids_not_distinct :
    ¬ ((read_test_scenarios [rowDup, rowDup, rowDup]).map
        (fun sc => sc.test_id)).Nodup := by
  decide

/-- C3 (amended): every id assigned by `read_test_scenarios` is either the
row's original source key or the synthetic form `key_step_N` built from
that row's step number; the synthetic ids are not guaranteed to be fresh
and the original key is kept only as the prefix of the synthetic id, not
as a separate attribute. -/
theorem scenario_id_original_or_synthetic (rows : List Row) (sc : Scenario)
    (h : sc ∈ read_test_scenarios rows) :
    ∃ r ∈ rows, sc.test_id = r.testId.getD ""
      ∨ sc.test_id = r.testId.getD "" ++ "_step_" ++ toString (r.stepNo.getD 1) := by
  rcases foldl_normalizeRow_mem rows [] sc h with h' | h'
  · simp at h'
  · exact h'

/-- C3 (witness): the second scenario read from two rows keyed `TC001`
carries the synthetic id built from the key and the step number. -/
theorem scenario_id_original_or_synthetic_witness :
    ∃ r ∈ [rowDup, rowDup], scDupSecond.test_id = r.testId.getD ""
      ∨ scDupSecond.test_id
          = r.testId.getD "" ++ "_step_" ++ toString (r.stepNo.getD 1) :=
  scenario_id_original_or_synthetic [rowDup, rowDup] scDupSecond (by decide)

/-- C7 (counterexample): a row with an empty `ScenarioKey` cell is dropped
with no trace: the complete return value of `read_test_scenarios` is just
the scenario list of the remaining rows, and no warning or source line
number is recorded anywhere. -/
theorem empty_key_row_no_warning_recorded :
    read_test_scenarios [rowNoKey, rowDup] = [scTC001] := by
  decide

/-- C7 (amended): `read_test_scenarios` silently skips every row whose
`Test ID` cell is empty: the row yields no scenario and no step, the other
rows are unaffected, and no warning is recorded (the function returns only
the scenario list). -/
theorem empty_key_row_skipped_silently (pre post : List Row) (r : Row)
    (h : r.testId.getD "" = "") :
    read_test_scenarios (pre ++ r :: post) = read_test_scenarios (pre ++ post) := by
  unfold read_test_scenarios
  rw [List.foldl_append, List.foldl_append, List.foldl_cons,
    normalizeRow_skip _ _ h]

/-- C7 (witness): skipping the empty-keyed sample row between two reads. -/
theorem empty_key_row_skipped_silently_witness :
    read_test_scenarios ([rowTC1] ++ rowNoKey :: [rowDup])
      = read_test_scenarios ([rowTC1] ++ [rowDup]) :=
  empty_key_row_skipped_silently [rowTC1] [rowDup] rowNoKey (by decide)

/-- C8 (counterexample): a present-but-blank `Öncelik` or `Test Türü` cell
is not replaced by the documented default: the scenario keeps the empty
string instead of `Orta` and `Web`. -/
theorem blank_priority_not_defaulted :
    (read_test_scenarios [rowBlankCells]).map (fun sc => sc.priority) ≠ ["Orta"]
      ∧ (read_test_scenarios [rowBlankCells]).map (fun sc => sc.test_type) ≠ ["Web"] := by
  decide

/-- C8 (amended): the `Orta` and `Web` defaults of `read_test_scenarios`
apply only when the `Öncelik` or `Test Türü` column is absent from the
table; a present cell is copied verbatim, so a blank cell yields the empty
string rather than the default. -/
theorem column_defaults_only_when_absent (r : Row) (h : ¬ r.testId.getD "" = "") :
    (read_test_scenarios [r]).map (fun sc => sc.priority)
        = [r.priorityCell.getD "Orta"]
      ∧ (read_test_scenarios [r]).map (fun sc => sc.test_type)
        = [r.testTypeCell.getD "Web"]
      ∧ (r.priorityCell = some "" →
          (read_test_scenarios [r]).map (fun sc => sc.priority) = [""])
      ∧ (r.testTypeCell = some "" →
          (read_test_scenarios [r]).map (fun sc => sc.test_type) = [""]) := by
  refine ⟨?_, ?_, ?_, ?_⟩ <;>
    simp [read_test_scenarios, normalizeRow, h]
  · intro hp
    simp [hp]
  · intro ht
    simp [ht]

/-- C8 (witness): the blank-celled sample row keeps its empty strings. -/
theorem column_defaults_only_when_absent_witness :
    (read_test_scenarios [rowBlankCells]).map (fun sc => sc.priority)
        = [rowBlankCells.priorityCell.getD "Orta"]
      ∧ (read_test_scenarios [rowBlankCells]).map (fun sc => sc.test_type)
        = [rowBlankCells.testTypeCell.getD "Web"]
      ∧ (rowBlankCells.priorityCell = some "" →
          (read_test_scenarios [rowBlankCells]).map (fun sc => sc.priority) = [""])
      ∧ (rowBlankCells.testTypeCell = some "" →
          (read_test_scenarios [rowBlankCells]).map (fun sc => sc.test_type) = [""]) :=
  column_defaults_only_when_absent rowBlankCells (by decide)

/-- C10: every scenario produced by `read_test_scenarios` holds exactly one
step, and each row with a non-empty key becomes its own scenario (rows are
never merged). -/
theorem every_scenario_single_step (rows : List Row) :
    (∀ sc ∈ read_test_scenarios rows, sc.steps.length = 1)
      ∧ (read_test_scenarios rows).length
          = (rows.filter (fun r => !(r.testId.getD "" == ""))).length := by
  constructor
  · exact foldl_normalizeRow_steps rows [] (by simp)
  · simpa using foldl_normalizeRow_length rows []

/-- C10 (witness): on the three-row sample, the first scenario has one step
and the output length equals the number of keyed rows. -/
theorem every_scenario_single_step_witness :
    scTC001.steps.length = 1
      ∧ (read_test_scenarios [rowDup, rowNoKey]).length
          = ([rowDup, rowNoKey].filter (fun r => !(r.testId.getD "" == ""))).length :=
  ⟨(every_scenario_single_step [rowDup, rowNoKey]).1 scTC001 (by decide),
   (every_scenario_single_step [rowDup, rowNoKey]).2⟩

/-- Folding list-append over a fold is flattening the mapped lists. -/
theorem foldl_append_eq_flatten {α β : Type} (f : α → List β) (l : List α)
    (a : List β) :
    l.foldl (fun ws st => ws ++ f st) a = a ++ (l.map f).flatten := by
  induction l generalizing a with
  | nil => simp
  | cons x xs ih => simp [ih]

/-- The validity flag of the scenario fold: true exactly when the
accumulator was valid and no folded scenario has a fatal error. -/
theorem validate_valid_foldl (scenarios : List Scenario) (acc : ValidationResult) :
    (scenarios.foldl validateScenarioStep acc).valid
      = (acc.valid && scenarios.all (fun sc => (scenarioErrors sc).isEmpty)) := by
  induction scenarios generalizing acc with
  | nil => simp
  | cons sc scs ih =>
    simp [List.foldl_cons, ih, validateScenarioStep, Bool.and_assoc]

/-- The warnings record of a single-scenario validation: the per-step
warnings in step order, each prefixed with the scenario id. -/
theorem validate_singleton_warnings (sc : Scenario) :
    (validate_test_scenarios [sc]).warnings
      = ((sc.steps.map stepWarningsOf).flatten).map
          (fun w => sc.test_id ++ ": " ++ w) := by
  simp [validate_test_scenarios, validateScenarioStep, foldl_append_eq_flatten]

/-- C6 (counterexample): a `Seç` step with an empty locator value
contributes no warning at all to the validation record. -/
theorem select_missing_locator_no_warning :
    stepSelectNoLocator.action = "Seç"
      ∧ stepSelectNoLocator.locator_value = ""
      ∧ (validate_test_scenarios [scSelect]).warnings = [] := by
  decide

/-- C6 (amended): only the `Tıkla` and `Yaz` actions trigger the
missing-locator warning; a `Seç` step with an empty locator contributes no
warning; and warnings never make the validation record invalid, since the
validity flag depends only on the fatal per-scenario errors. -/
theorem locator_warning_click_type_only (sc : Scenario) (st : Step)
    (hmem : st ∈ sc.steps) (hact : st.action = "Tıkla" ∨ st.action = "Yaz")
    (hloc : st.locator_value = "") :
    ((sc.test_id ++ ": "
        ++ ("Adım " ++ toString st.step_number ++ ": Eylem için locator eksik"))
          ∈ (validate_test_scenarios [sc]).warnings)
      ∧ (∀ st' : Step, st'.action = "Seç" → ¬ st'.description = ""
          → stepWarningsOf st' = [])
      ∧ (∀ scenarios : List Scenario,
          (validate_test_scenarios scenarios).valid = true
            ↔ ∀ sc' ∈ scenarios, scenarioErrors sc' = []) := by
  refine ⟨?_, ?_, ?_⟩
  · rw [validate_singleton_warnings]
    refine List.mem_map.2
      ⟨"Adım " ++ toString st.step_number ++ ": Eylem için locator eksik", ?_, rfl⟩
    refine List.mem_flatten.2 ⟨stepWarningsOf st, List.mem_map_of_mem _ hmem, ?_⟩
    simp [stepWarningsOf, hact, hloc]
  · intro st' hact' hdesc'
    have h1 : ¬ st'.action = "Tıkla" := by simp [hact']
    have h2 : ¬ st'.action = "Yaz" := by simp [hact']
    simp [stepWarningsOf, h1, h2, hdesc']
  · intro scenarios
    rw [validate_test_scenarios, validate_valid_foldl]
    simp [List.all_eq_true, List.isEmpty_iff]

/-- C6 (witness): the missing-locator warning for the sample `Tıkla` step. -/
theorem locator_warning_click_type_only_witness :
    ((scClick.test_id ++ ": "
        ++ ("Adım " ++ toString stepClickNoLocator.step_number
              ++ ": Eylem için locator eksik"))
          ∈ (validate_test_scenarios [scClick]).warnings)
      ∧ (∀ st' : Step, st'.action = "Seç" → ¬ st'.description = ""
          → stepWarningsOf st' = [])
      ∧ (∀ scenarios : List Scenario,
          (validate_test_scenarios scenarios).valid = true
            ↔ ∀ sc' ∈ scenarios, scenarioErrors sc' = []) :=
  locator_warning_click_type_only scClick stepClickNoLocator
    (by decide) (by decide) (by decide)

/-- C1 (counterexample): lowering is not total in the sense of the claim: a
step with an unrecognized (here empty) action token, empty locator and
datum fields and no expected outcome lowers to the empty list, with no
commented placeholder. -/
theorem step_lowering_unknown_action_empty :
    generate_step_code stepBlank .selenium = [] := by
  decide

/-- C1 (amended): for every framework, lowering a step yields the empty
list exactly when the step's expected outcome is empty and the action does
not render: the case-folded token is unrecognized, or it is `tıkla` with an
empty locator, or `yaz` or `seç` with an empty locator or datum.  In every
other case the lowered list is non-empty. -/
theorem step_lowering_empty_iff (st : Step) (fw : Framework) :
    generate_step_code st fw = []
      ↔ (st.expected_result = "" ∧ rendersCode st = false) := by
  cases fw <;>
    simp only [generate_step_code, rendersCode, expectedComment] <;>
    split_ifs <;>
    simp_all

/-- C4 (counterexample): for the single-step scenario whose action token is
`levitate`, validation records no warning at all, and the step lowers to
the empty list, so the emitted test body carries no TODO comment for the
token. -/
theorem unknown_token_counterexample :
    (validate_test_scenarios [scLevitate]).warnings = []
      ∧ generate_step_code stepLevitate .selenium = [] := by
  decide

/-- C4 (amended): for a step whose case-folded action token is outside the
fixed action table, compilation succeeds but no warning is recorded for the
token (the validation checks look only at description, locator and datum),
and the emitted body contains no TODO line: the step contributes no lines
at all when its expected outcome is empty, while the terminal positive
assertion line is still present in every generated test method. -/
theorem unknown_token_no_warning_no_todo (st : Step) (sc : Scenario)
    (fw : Framework)
    (hunk : pyLower st.action ∉ (["aç", "tıkla", "yaz", "bekle", "seç"] : List String))
    (hdesc : ¬ st.description = "") :
    (st.expected_result = "" → generate_step_code st fw = [])
      ∧ stepWarningsOf st = []
      ∧ "            assert True" ∈ generateTestMethodLines sc fw := by
  have h1 : ¬ pyLower st.action = "aç" := fun h => hunk (by simp [h])
  have h2 : ¬ pyLower st.action = "tıkla" := fun h => hunk (by simp [h])
  have h3 : ¬ pyLower st.action = "yaz" := fun h => hunk (by simp [h])
  have h4 : ¬ pyLower st.action = "bekle" := fun h => hunk (by simp [h])
  have h5 : ¬ pyLower st.action = "seç" := fun h => hunk (by simp [h])
  have hA : ¬ st.action = "Tıkla" := by
    intro h
    exact h2 (by rw [h]; decide)
  have hB : ¬ st.action = "Yaz" := by
    intro h
    exact h3 (by rw [h]; decide)
  refine ⟨?_, ?_, ?_⟩
  · intro hexp
    simp [generate_step_code, h1, h2, h3, h4, h5, expectedComment, hexp]
  · simp [stepWarningsOf, hA, hB, hdesc]
  · simp [generateTestMethodLines]

/-- C4 (witness): the amended statement at the `levitate` sample step. -/
theorem unknown_token_no_warning_no_todo_witness :
    (stepLevitate.expected_result = ""
        → generate_step_code stepLevitate .selenium = [])
      ∧ stepWarningsOf stepLevitate = []
      ∧ "            assert True" ∈ generateTestMethodLines scLevitate .selenium :=
  unknown_token_no_warning_no_todo stepLevitate scLevitate .selenium
    (by decide) (by decide)

/-- C5: a step whose case-folded action token is the open token with its
datum as URL lowers, for the web framework, to a navigation call on the
datum; for the mobile framework to the commented no-op alone (every line
emitted for it is a comment); and for the api framework to a GET on the
datum followed by the status-200 assertion.  In each case only the
expected-outcome comment may follow. -/
theorem open_action_lowering (st : Step) (h : pyLower st.action = "aç") :
    generate_step_code st .selenium
        = ("self.driver.get(\x27" ++ st.test_data ++ "\x27)") :: expectedComment st
      ∧ generate_step_code st .appium
        = "# Uygulama zaten açık" :: expectedComment st
      ∧ (∀ l ∈ generate_step_code st .appium, ∃ r, l = "#" ++ r)
      ∧ generate_step_code st .requests
        = ("response = self.session.get(\x27" ++ st.test_data ++ "\x27)")
            :: "assert response.status_code == 200" :: expectedComment st := by
  refine ⟨?_, ?_, ?_, ?_⟩
  · simp [generate_step_code, h]
  · simp [generate_step_code, h]
  · intro l hl
    by_cases hexp : st.expected_result = ""
    · simp [generate_step_code, h, expectedComment, hexp] at hl
      subst hl
      exact ⟨" Uygulama zaten açık", by decide⟩
    · simp [generate_step_code, h, expectedComment, hexp] at hl
      rcases hl with hl | hl
      · subst hl
        exact ⟨" Uygulama zaten açık", by decide⟩
      · subst hl
        refine ⟨" Beklenen sonuç: " ++ st.expected_result, ?_⟩
        have hsplit : ("# Beklenen sonuç: " : String) = "#" ++ " Beklenen sonuç: " := by
          decide
        rw [hsplit, String.append_assoc]
  · simp [generate_step_code, h]

/-- C5 (witness): the open sample step under the three frameworks. -/
theorem open_action_lowering_witness :
    generate_step_code stepOpen .selenium
        = ("self.driver.get(\x27" ++ stepOpen.test_data ++ "\x27)")
            :: expectedComment stepOpen
      ∧ generate_step_code stepOpen .appium
        = "# Uygulama zaten açık" :: expectedComment stepOpen
      ∧ generate_step_code stepOpen .requests
        = ("response = self.session.get(\x27" ++ stepOpen.test_data ++ "\x27)")
            :: "assert response.status_code == 200" :: expectedComment stepOpen :=
  ⟨(open_action_lowering stepOpen (by decide)).1,
   (open_action_lowering stepOpen (by decide)).2.1,
   (open_action_lowering stepOpen (by decide)).2.2.2⟩

set_option maxRecDepth 8000 in
/-- C2 (counterexample): generating the same empty project twice at
different wall-clock times does not produce byte-identical files: the
emitted `README.md` embeds the generation timestamp. -/
theorem emitted_files_not_time_invariant :
    emittedFiles [] .selenium "proje" false "2024-01-01 00:00:00"
      ≠ emittedFiles [] .selenium "proje" false "2025-01-01 00:00:01" := by
  intro h
  have h3 := congrArg (fun l => (l.map Prod.snd)[3]?) h
  simp only [emittedFiles, List.map_nil, List.nil_append, List.map_cons,
    List.map_append, List.append_nil, List.getElem?_cons_succ,
    List.getElem?_cons_zero] at h3
  exact absurd h3 (by decide)

/-- C2 (amended): two runs of the Python-project emitter on identical
scenarios, framework, project name and host differ at most in the
`README.md` entry, whose content embeds the run's timestamp; every other
emitted file content, and the full path list, is identical across runs. -/
theorem emitted_files_differ_only_in_readme (scenarios : List Scenario)
    (fw : Framework) (projectName : String) (isWindows : Bool)
    (t1 t2 : String) :
    ∃ pre post,
      emittedFiles scenarios fw projectName isWindows t1
          = pre ++ ("README.md", readmeContent fw scenarios.length
              ("generated_tests/" ++ projectName) t1) :: post
        ∧ emittedFiles scenarios fw projectName isWindows t2
          = pre ++ ("README.md", readmeContent fw scenarios.length
              ("generated_tests/" ++ projectName) t2) :: post
        ∧ (emittedFiles scenarios fw projectName isWindows t1).map Prod.fst
          = (emittedFiles scenarios fw projectName isWindows t2).map Prod.fst := by
  refine ⟨[("requirements.txt", requirementsContent fw),
           (setupFileName isWindows, setupScriptContent isWindows),
           ("config.py", configContent fw)]
            ++ scenarios.map (fun sc => (testFileName sc, testFileContent sc fw)),
          [("run_tests.py", runnerContent fw)], ?_, ?_, ?_⟩ <;>
    simp [emittedFiles]

/-- The accumulator walk of CPython string split agrees with the standard
words recursion: a non-empty accumulator holds the reversed prefix of the
current word. -/
theorem pySplitAux_eq_wordsSpec (cs : List Char) :
    ∀ acc : List Char,
      pySplitAux cs acc
        = if acc.isEmpty then wordsSpec cs
          else (acc.reverse ++ cs.takeWhile (fun d => !pySpace d))
              :: wordsSpec (cs.dropWhile (fun d => !pySpace d)) := by
  induction cs with
  | nil =>
    intro acc
    by_cases h : acc.isEmpty <;> simp [pySplitAux, wordsSpec, h]
  | cons c cs ih =>
    intro acc
    by_cases hc : pySpace c
    · by_cases h : acc.isEmpty <;>
        simp [pySplitAux, hc, h, wordsSpec, ih, List.takeWhile_cons, List.dropWhile_cons]
    · by_cases h : acc.isEmpty
      · have hacc : acc = [] := List.isEmpty_iff.1 h
        subst hacc
        simp [pySplitAux, hc, ih, wordsSpec, List.takeWhile_cons, List.dropWhile_cons]
      · simp [pySplitAux, hc, h, ih, wordsSpec, List.takeWhile_cons,
          List.dropWhile_cons]

/-- C9: the class name generated from a scenario name equals the
specification rendering (remove characters that are neither alphanumeric
nor whitespace, split on whitespace, capitalize each word, concatenate,
prefix `Test`), and in particular the name `Login` yields `TestLogin`. -/
theorem class_name_matches_spec :
    (∀ name : String, generate_class_name name = classNameClaim name)
      ∧ generate_class_name "Login" = "TestLogin" := by
  constructor
  · intro name
    unfold generate_class_name classNameClaim pySplit
    rw [pySplitAux_eq_wordsSpec]
    simp
  · decide
